import Mathlib

/-!
# Verification of the bot-paketxl refresh/backoff/notification-dedup policy

Shallow embedding of the policy-relevant parts of the repository:

* `src/bot_paketxl/api.py` — `XLApiClient.fetch`, rate-limit phrase detection;
* `src/bot_paketxl/storage.py` — `NumberRecord`, `Storage.update_cache`,
  `Storage.set_last_notified`, `Storage.add_number`;
* `src/bot_paketxl/app.py` — `check_number` / `scheduled_refresh` fetch
  application, `reminder_job` (H-1 / H0 reminder scan and its dedup),
  the `add`-flow label step of `handle_text_input`;
* `src/xl_bot.py` — the monolithic variants `fetch_and_cache`,
  `reminder_job` / `send_reminder` (which, unlike the package version,
  catches delivery failures per record), `normalize_number`;
* `src/bot_paketxl/formatting.py` — `normalize_number`, `parse_expiry_text`,
  the `days_left` component of `indicator_by_date`.

Machine integers are modelled as `Int` (Python integers are unbounded).
JSON payloads are modelled structurally with `Option` for absent fields;
presentation-only data (quota names, rendered HTML, icons) is outside the
policy and is not modelled.  Timestamps (`time.time()`) and "today" are
explicit parameters.
-/

namespace BotPaketXL

/-- Python string truthiness for an optional string: `None` and `""` are
falsy.  Used to model `a or b` chains over `payload.get(...)` results. -/
def strTruthy : Option String → Option String
  | none => none
  | some s => if s = "" then none else some s

/-- `pat` occurs as a contiguous substring of `s` (models Python `pat in s`
for strings). -/
def listIsSubstr (pat : List Char) : List Char → Bool
  | [] => pat.isEmpty
  | c :: rest => pat.isPrefixOf (c :: rest) || listIsSubstr pat rest

/-- One entry of `data.package_info.packages[]`.  Only the `expiry` field is
consulted by the refresh/reminder policy; `name` and `quotas` feed only the
rendered message text. -/
structure Package where
  name : Option String
  expiry : Option String
  deriving Repr, DecidableEq

/-- `data.package_info` of an API payload. -/
structure PackageInfo where
  error_message : Option String
  packages : List Package
  deriving Repr, DecidableEq

/-- `data` of an API payload. -/
structure PayloadData where
  package_info : Option PackageInfo
  deriving Repr, DecidableEq

/-- A parsed JSON payload of the quota endpoint, as accessed by the code:
top-level `success` (truthiness of `payload.get("success")`), top-level
`message`, and `data.package_info`.  `none` models an absent field. -/
structure Payload where
  success : Bool
  message : Option String
  data : Option PayloadData
  deriving Repr, DecidableEq

/-- `api.py` / `xl_bot.py`: `LIMIT_PHRASE = "batas maksimal pengecekan"`. -/
def LIMIT_PHRASE : String := "batas maksimal pengecekan"

/-- `api.py` / `xl_bot.py`: `BLOCK_SECONDS = 3 * 3600`. -/
def BLOCK_SECONDS : Int := 3 * 3600

/-- `str.lower()` on ASCII text (character-wise lowering). -/
def pyLower (s : String) : String :=
  String.mk (s.data.map Char.toLower)

/-- `str.upper()` on ASCII text (character-wise raising). -/
def pyUpper (s : String) : String :=
  String.mk (s.data.map Char.toUpper)

/-- `LIMIT_PHRASE in message.lower()` (the phrase itself is lowercase, so
this is a case-insensitive containment check). -/
def limitPhraseIn (message : String) : Bool :=
  listIsSubstr LIMIT_PHRASE.data (pyLower message).data

/-- `api.py`: `ApiResult` dataclass. -/
structure ApiResult where
  success : Bool
  payload : Option Payload
  message : String
  block_seconds : Int
  deriving Repr, DecidableEq

/-- Outcome of the HTTP GET underlying a fetch: either the
request/raise_for_status/json step raised (with exception text `exc`), or it
produced a parsed JSON payload. -/
inductive HttpOutcome where
  | transportError (exc : String)
  | ok (payload : Payload)
  deriving Repr, DecidableEq

/-- `(payload.get("data", {}).get("package_info", {}) or {}).get("error_message")`. -/
def pkgInfoErrMsg (p : Payload) : Option String :=
  match p.data with
  | none => none
  | some d =>
    match d.package_info with
    | none => none
    | some pi => pi.error_message

/-- `api.py` `XLApiClient.fetch` (identical policy to `xl_bot.py` `_api_get`):
transport failure → `(False, None, "Gagal mengambil data: ...", 0)`;
`not payload.get("success")` → failure with message from
`message or nested error_message or "Unknown error"` and a 3-hour block iff
the message contains `LIMIT_PHRASE` case-insensitively; a truthy nested
`error_message` on a successful response → same failure classification;
otherwise success. -/
def fetch (o : HttpOutcome) : ApiResult :=
  match o with
  | .transportError exc =>
    { success := false, payload := none
      message := "Gagal mengambil data: " ++ exc, block_seconds := 0 }
  | .ok p =>
    if p.success = false then
      let message :=
        ((strTruthy p.message).orElse (fun _ => strTruthy (pkgInfoErrMsg p))).getD
          "Unknown error"
      let block := if limitPhraseIn message then BLOCK_SECONDS else 0
      { success := false, payload := some p, message := message, block_seconds := block }
    else
      match strTruthy (pkgInfoErrMsg p) with
      | some err =>
        let block := if limitPhraseIn err then BLOCK_SECONDS else 0
        { success := false, payload := some p, message := err, block_seconds := block }
      | none =>
        { success := true, payload := some p, message := "", block_seconds := 0 }

/-- `storage.py` `NumberRecord` (the DB row of table `numbers`).  The
auto-assigned `id` and the constant-`0` `is_default` column are DB
bookkeeping not read by any policy code and are omitted. -/
structure NumberRecord where
  tg_user_id : Int
  label : String
  msisdn : String
  created_at : Int
  last_fetch_ts : Int
  last_payload : Option Payload
  next_retry_ts : Int
  last_error : Option String
  last_notified_expiry : Option String
  last_notified_type : Option String
  last_notified_at : Int
  deriving Repr, DecidableEq

/-- `storage.py` `Storage.update_cache` (= `xl_bot.py` `update_cache`) applied
to the row with the matching `msisdn`: sets `last_fetch_ts = now`, overwrites
`last_payload` and `last_error` with the given values, and sets
`next_retry_ts = now + block_for_seconds if block_for_seconds > 0 else 0`. -/
def update_cache (now : Int) (payload : Option Payload) (error : Option String)
    (block_for_seconds : Int) (rec : NumberRecord) : NumberRecord :=
  { rec with
    last_fetch_ts := now
    last_payload := payload
    last_error := error
    next_retry_ts := if block_for_seconds > 0 then now + block_for_seconds else 0 }

/-- The post-fetch state update common to `app.py` `check_number`,
`check_refresh_due`, `check_force_all`, `scheduled_refresh`, the `add` flow,
and `xl_bot.py` `fetch_and_cache`:
`update_cache(msisdn, result.payload, None)` on success, and
`update_cache(msisdn, result.payload, result.message, result.block_seconds)`
on failure. -/
def applyFetchResult (now : Int) (r : ApiResult) (rec : NumberRecord) : NumberRecord :=
  if r.success then update_cache now r.payload none 0 rec
  else update_cache now r.payload (some r.message) r.block_seconds rec

/-- `app.py` `scheduled_refresh` / `xl_bot.py` `scheduled_refresh` per-row due
test: `(now - last_ts) >= refresh_interval and now >= next_retry`. -/
def refreshDue (now last_ts next_retry interval : Int) : Bool :=
  (interval ≤ now - last_ts) && (next_retry ≤ now)

/-- `scheduled_refresh`: iterate all rows; for each due row call the API and
apply the post-fetch update; non-due rows are untouched.  Returns the new
rows together with the list of msisdns actually fetched (in scan order). -/
def scheduled_refresh (now interval : Int) (api : String → ApiResult)
    (rows : List NumberRecord) : List NumberRecord × List String :=
  (rows.map (fun rec =>
      if refreshDue now rec.last_fetch_ts rec.next_retry_ts interval then
        applyFetchResult now (api rec.msisdn) rec
      else rec),
   (rows.filter (fun rec =>
      refreshDue now rec.last_fetch_ts rec.next_retry_ts interval)).map
     (fun rec => rec.msisdn))

/-! ## Dates and `parse_expiry_text` -/

/-- A calendar date as produced by `datetime.strptime(expiry_text, "%d-%m-%Y")`. -/
structure Date where
  year : Nat
  month : Nat
  day : Nat
  deriving Repr, DecidableEq

/-- Gregorian leap-year test (as in Python's `datetime`). -/
def isLeap (y : Nat) : Bool :=
  (y % 4 = 0 && y % 100 ≠ 0) || y % 400 = 0

/-- Number of days of month `m` (1–12) in year `y`. -/
def daysInMonth (y m : Nat) : Nat :=
  if m = 2 then (if isLeap y then 29 else 28)
  else if m = 4 || m = 6 || m = 9 || m = 11 then 30
  else 31

/-- Days in all months strictly before month `m` of year `y`. -/
def daysBeforeMonth (y m : Nat) : Nat :=
  (List.range m).foldl (fun acc i => if i = 0 then acc else acc + daysInMonth y i) 0

/-- Proleptic-Gregorian ordinal of a date (as Python `date.toordinal`:
0001-01-01 has ordinal 1). -/
def toOrdinal (d : Date) : Nat :=
  (d.year - 1) * 365 + (d.year - 1) / 4 - (d.year - 1) / 100 + (d.year - 1) / 400
    + daysBeforeMonth d.year d.month + d.day

/-- `(a - b).days` for two dates (Python `timedelta.days` of exact dates). -/
def dateDelta (a b : Date) : Int :=
  (toOrdinal a : Int) - (toOrdinal b : Int)

/-- Split a character list at every occurrence of `sep`
(Python `str.split(sep)` for a one-character separator). -/
def splitChar (sep : Char) : List Char → List (List Char)
  | [] => [[]]
  | c :: rest =>
    let r := splitChar sep rest
    if c = sep then [] :: r
    else
      match r with
      | [] => [[c]]
      | h :: t => (c :: h) :: t

/-- Decimal value of a digit list. -/
def digitsToNat (cs : List Char) : Nat :=
  cs.foldl (fun n c => 10 * n + (c.toNat - 48)) 0

/-- A 1-or-2-digit numeric field of `strptime` (`%d` / `%m`). -/
def parseField2 (cs : List Char) : Option Nat :=
  if cs.all Char.isDigit ∧ 1 ≤ cs.length ∧ cs.length ≤ 2 then
    some (digitsToNat cs)
  else none

/-- The exactly-4-digit `%Y` field of CPython's `strptime`. -/
def parseYear4 (cs : List Char) : Option Nat :=
  if cs.all Char.isDigit ∧ cs.length = 4 then some (digitsToNat cs) else none

/-- `formatting.py` `parse_expiry_text` (= `xl_bot.py` `parse_expiry_text`):
`datetime.strptime(expiry_text, "%d-%m-%Y").date()`, `None` on any failure.
`strptime` requires day 1–31 (1–2 digits), month 1–12 (1–2 digits), a 4-digit
year, and `datetime` then requires year ≥ 1 and the day to exist in the
month. -/
def parse_expiry_text (s : String) : Option Date :=
  match splitChar '-' s.data with
  | [ds, ms, ys] =>
    match parseField2 ds, parseField2 ms, parseYear4 ys with
    | some d, some m, some y =>
      if 1 ≤ d ∧ d ≤ 31 ∧ 1 ≤ m ∧ m ≤ 12 ∧ 1 ≤ y ∧ d ≤ daysInMonth y m then
        some ⟨y, m, d⟩
      else none
    | _, _, _ => none
  | _ => none

/-- The `days_left` component of `formatting.py` `indicator_by_date`:
`(parsed expiry - today).days`, or `None` when the expiry does not parse.
The icon/text components are presentation only. -/
def indicator_days_left (today : Date) (expiry_text : String) : Option Int :=
  (parse_expiry_text expiry_text).map (fun dt => dateDelta dt today)

/-! ## Reminder scan (`app.py reminder_job` and `xl_bot.py reminder_job`) -/

/-- `storage.py` `UserPreferences` fields consulted by the reminder scan
(`sort_order` / `search_query` are list-presentation only). -/
structure UserPreferences where
  reminder_h1 : Bool
  reminder_h0 : Bool
  reminder_hour : Nat
  deriving Repr, DecidableEq

/-- `storage.py` `Storage.set_last_notified` applied to the row with the
matching `msisdn`. -/
def set_last_notified (expiry_text notif_type : String) (now_ts : Int)
    (rec : NumberRecord) : NumberRecord :=
  { rec with
    last_notified_expiry := some expiry_text
    last_notified_type := some notif_type
    last_notified_at := now_ts }

/-- `data = payload.get("data") or {}; pk_info = data.get("package_info") or {};
packages = pk_info.get("packages") or []`. -/
def payloadPackages (p : Payload) : List Package :=
  match p.data with
  | none => []
  | some d =>
    match d.package_info with
    | none => []
    | some pi => pi.packages

/-- The dedup marker captured at the start of a record's reminder pass:
`((row["last_notified_type"] or "").upper(), row["last_notified_expiry"] or "")`. -/
def capturedMarker (rec : NumberRecord) : String × String :=
  (pyUpper (rec.last_notified_type.getD ""), rec.last_notified_expiry.getD "")

/-- A delivered reminder, identified by its dedup key `(notif_type, expiry_text)`. -/
abbrev SentKey := String × String

/-- `app.py` `reminder_job` bucket construction: a package lands in `due_h1`
iff its `expiry` is present, non-empty and not `"-"`, `indicator_by_date`
gives `days_left == 1`, and `prefs.reminder_h1` is set. -/
def due_h1_filter (today : Date) (prefs : UserPreferences)
    (packages : List Package) : List Package :=
  packages.filter (fun pkg =>
    match pkg.expiry with
    | none => false
    | some e =>
      e ≠ "" && e ≠ "-" && (indicator_days_left today e == some 1) && prefs.reminder_h1)

/-- `app.py` `reminder_job` bucket construction for `due_h0`
(`days_left == 0` and `prefs.reminder_h0`). -/
def due_h0_filter (today : Date) (prefs : UserPreferences)
    (packages : List Package) : List Package :=
  packages.filter (fun pkg =>
    match pkg.expiry with
    | none => false
    | some e =>
      e ≠ "" && e ≠ "-" && (indicator_days_left today e == some 0) && prefs.reminder_h0)

/-- The inner `send(packages, notif_type)` closure of `app.py`
`reminder_job`: empty bucket → no-op; dedup key
`(notif_type, packages[0].get("expiry", "-"))` equal to the captured marker →
suppressed; otherwise deliver (`deliverOk` tells whether
`bot_send_in_chunks` succeeds) and on success record `set_last_notified`.
There is no `try`/`except` around the delivery in `app.py`, so a delivery
failure propagates as an exception (`Except.error` with the failed key). -/
def sendApp (cap : String × String) (deliverOk : SentKey → Bool) (now_ts : Int)
    (bucket : List Package) (ntype : String)
    (st : NumberRecord × List SentKey) : Except SentKey (NumberRecord × List SentKey) :=
  match bucket with
  | [] => .ok st
  | pkg :: _ =>
    let e := pkg.expiry.getD "-"
    if ntype = cap.1 ∧ cap.2 = e then .ok st
    else if deliverOk (ntype, e) then
      .ok (set_last_notified e ntype now_ts st.1, st.2 ++ [(ntype, e)])
    else .error (ntype, e)

/-- One record's pass of `app.py` `reminder_job`: skip when the hour does not
match the owner's `reminder_hour` or there is no cached payload (absent or
unparseable JSON) or the package list is empty; otherwise send the `H-1`
bucket then the `H0` bucket, both compared against the marker captured at
pass start.  Returns the updated record and the keys delivered, or
`Except.error` if a delivery raised. -/
def reminder_record_app (today : Date) (hour : Nat) (prefs : UserPreferences)
    (now_ts : Int) (deliverOk : SentKey → Bool) (rec : NumberRecord) :
    Except SentKey (NumberRecord × List SentKey) :=
  let cap := capturedMarker rec
  if hour ≠ prefs.reminder_hour then .ok (rec, [])
  else
    match rec.last_payload with
    | none => .ok (rec, [])
    | some payload =>
      let packages := payloadPackages payload
      if packages.isEmpty then .ok (rec, [])
      else
        match sendApp cap deliverOk now_ts (due_h1_filter today prefs packages) "H-1" (rec, []) with
        | .error k => .error k
        | .ok st1 => sendApp cap deliverOk now_ts (due_h0_filter today prefs packages) "H0" st1

/-- The whole `app.py` `reminder_job` scan: records processed in order; a
delivery exception on one record propagates out of the loop, so the
remaining records are not processed. -/
def reminder_job_app (today : Date) (hour : Nat) (prefsOf : Int → UserPreferences)
    (now_ts : Int) (deliverOk : String → SentKey → Bool) :
    List NumberRecord → Except SentKey (List (NumberRecord × List SentKey))
  | [] => .ok []
  | rec :: rest =>
    match reminder_record_app today hour (prefsOf rec.tg_user_id) now_ts
        (deliverOk rec.msisdn) rec with
    | .error k => .error k
    | .ok r =>
      match reminder_job_app today hour prefsOf now_ts deliverOk rest with
      | .error k => .error k
      | .ok rs => .ok (r :: rs)

/-- `xl_bot.py` `reminder_job` bucket construction: expiry not in
`(None, "", "-")`, parseable, and equal to tomorrow (`due_h1`) /
today (`due_h0`).  Preference flags are checked at the call sites instead. -/
def due_h1_filter_xl (today : Date) (packages : List Package) : List Package :=
  packages.filter (fun pkg =>
    match pkg.expiry with
    | none => false
    | some e =>
      e ≠ "" && e ≠ "-" &&
        ((parse_expiry_text e).map (fun d => toOrdinal d) == some (toOrdinal today + 1)))

/-- `xl_bot.py` `due_h0` bucket (`elif d == today_wib`; a package cannot be in
both buckets since the parsed date is compared against tomorrow first). -/
def due_h0_filter_xl (today : Date) (packages : List Package) : List Package :=
  packages.filter (fun pkg =>
    match pkg.expiry with
    | none => false
    | some e =>
      e ≠ "" && e ≠ "-" &&
        ((parse_expiry_text e).map (fun d => toOrdinal d) == some (toOrdinal today)))

/-- The inner `send_reminder` closure of `xl_bot.py` `reminder_job`: same
dedup as `app.py`, but the delivery is wrapped in `try`/`except`: a failure
is logged, the marker is NOT updated, and processing continues (no
exception escapes). -/
def sendXl (cap : String × String) (deliverOk : SentKey → Bool) (now_ts : Int)
    (bucket : List Package) (ntype : String)
    (st : NumberRecord × List SentKey) : NumberRecord × List SentKey :=
  match bucket with
  | [] => st
  | pkg :: _ =>
    let e := pkg.expiry.getD "-"
    if ntype = cap.1 ∧ cap.2 = e then st
    else if deliverOk (ntype, e) then
      (set_last_notified e ntype now_ts st.1, st.2 ++ [(ntype, e)])
    else st

/-- One record's pass of `xl_bot.py` `reminder_job`: hour gate, cached
payload gate, `if h1_enabled: send_reminder(due_h1, "H-1", ...)` then
`if h0_enabled: send_reminder(due_h0, "H", ...)` (note the `"H"` type tag of
the monolithic version).  Total: never aborts. -/
def reminder_record_xl (today : Date) (hour : Nat) (prefs : UserPreferences)
    (now_ts : Int) (deliverOk : SentKey → Bool) (rec : NumberRecord) :
    NumberRecord × List SentKey :=
  let cap := capturedMarker rec
  if hour ≠ prefs.reminder_hour then (rec, [])
  else
    match rec.last_payload with
    | none => (rec, [])
    | some payload =>
      let packages := payloadPackages payload
      if packages.isEmpty then (rec, [])
      else
        let st1 :=
          if prefs.reminder_h1 then
            sendXl cap deliverOk now_ts (due_h1_filter_xl today packages) "H-1" (rec, [])
          else (rec, [])
        if prefs.reminder_h0 then
          sendXl cap deliverOk now_ts (due_h0_filter_xl today packages) "H" st1
        else st1

/-- The whole `xl_bot.py` `reminder_job` scan: every record is processed;
per-record delivery failures never abort the loop. -/
def reminder_job_xl (today : Date) (hour : Nat) (prefsOf : Int → UserPreferences)
    (now_ts : Int) (deliverOk : String → SentKey → Bool)
    (rows : List NumberRecord) : List (NumberRecord × List SentKey) :=
  rows.map (fun rec =>
    reminder_record_xl today hour (prefsOf rec.tg_user_id) now_ts
      (deliverOk rec.msisdn) rec)

/-! ## `normalize_number` (`formatting.py` = `xl_bot.py`) -/

/-- Python `str.strip()` on the character list (whitespace at both ends
removed; the inputs of interest are ASCII). -/
def stripChars (cs : List Char) : List Char :=
  ((cs.dropWhile Char.isWhitespace).reverse.dropWhile Char.isWhitespace).reverse

/-- `re.fullmatch(r"62\d{7,14}", raw)`: literal `62` followed by 7–14
digits. -/
def matches62Regex (cs : List Char) : Bool :=
  match cs with
  | a :: b :: rest =>
    a = '6' && b = '2' && rest.all Char.isDigit &&
      decide (7 ≤ rest.length) && decide (rest.length ≤ 14)
  | _ => false

/-- `if raw.startswith("+"): raw = raw[1:]`. -/
def stripLeadingPlus (cs : List Char) : List Char :=
  match cs with
  | c :: rest => if c = '+' then rest else c :: rest
  | [] => []

/-- `if raw.startswith("0"): raw = "62" + raw[1:]`. -/
def zeroTo62 (cs : List Char) : List Char :=
  match cs with
  | c :: rest => if c = '0' then '6' :: '2' :: rest else c :: rest
  | [] => []

/-- The character-list pipeline of `normalize_number`: strip, delete every
character outside `[0-9+]` (`re.sub(r"[^\d+]", "", raw)` for ASCII input),
drop one leading `+`, rewrite a leading `0` to `62`. -/
def normalizeCore (cs : List Char) : List Char :=
  zeroTo62 (stripLeadingPlus ((stripChars cs).filter (fun c => c.isDigit || c = '+')))

/-- `formatting.py` `normalize_number` (= `xl_bot.py` `normalize_number`):
apply the pipeline and accept iff the result fully matches `62\d{7,14}`. -/
def normalize_number (raw : String) : Option String :=
  if matches62Regex (normalizeCore raw.data) then some (String.mk (normalizeCore raw.data))
  else none

/-! ## `add_number` and the `add`-flow label step -/

/-- `storage.py` `Storage.add_number` (= `xl_bot.py` `add_number`): the
`INSERT` succeeds unless the `UNIQUE(msisdn)` constraint is violated, i.e.
iff no row with that `msisdn` exists; on `sqlite3.IntegrityError` nothing is
written and `(False, "Nomor sudah terdaftar.")` is returned.  The store is
the list of rows in insertion (= `created_at`, id) order. -/
def add_number (now : Int) (tg_user_id : Int) (label msisdn : String)
    (store : List NumberRecord) : List NumberRecord × Bool × String :=
  if store.any (fun r => r.msisdn = msisdn) then
    (store, false, "Nomor sudah terdaftar.")
  else
    (store ++ [{ tg_user_id := tg_user_id, label := label, msisdn := msisdn
                 created_at := now, last_fetch_ts := 0, last_payload := none
                 next_retry_ts := 0, last_error := none
                 last_notified_expiry := none, last_notified_type := none
                 last_notified_at := 0 }],
     true, "Nomor berhasil didaftarkan.")

/-- The `"label"` step of the `add` flow in `app.py` `handle_text_input`:
truncate/default the label, `storage.add_number`, then an immediate fetch
whose result is cached via `update_cache` on the row with this `msisdn`,
and a reply whose first line is the `add_number` message (`html.escape` of
the API message is abstracted away; the delivered text layout is kept). -/
def handle_add_label (now : Int) (tg_user_id : Int) (text msisdn : String)
    (apiOutcome : HttpOutcome) (store : List NumberRecord) :
    List NumberRecord × String :=
  let truncated := (stripChars text.data).take 32
  let label := if truncated.isEmpty then "Customer" else String.mk truncated
  let r1 := add_number now tg_user_id label msisdn store
  let result := fetch apiOutcome
  let store2 := r1.1.map (fun r =>
    if r.msisdn = msisdn then applyFetchResult now result r else r)
  let note := if result.success then "✅ Data awal diambil."
    else "⚠️ " ++ result.message
  (store2, r1.2.2 ++ ("\n" ++ note ++ "\n\nKembali ke menu utama:"))

/-! ## Concrete fixtures used by witnesses and counterexamples -/

/-- A successful payload whose packages carry the given expiry texts. -/
def fxPayload (es : List String) : Payload :=
  let pkgs : List Package := es.map (fun e => { name := some "XTRA Combo VIP", expiry := some e })
  let info : PackageInfo := { error_message := none, packages := pkgs }
  { success := true, message := none, data := some { package_info := some info } }

/-- Preferences with both reminder classes enabled and the given send hour. -/
def fxPrefs (h : Nat) : UserPreferences :=
  { reminder_h1 := true, reminder_h0 := true, reminder_hour := h }

/-- A freshly registered record (the `add_number` insert shape). -/
def fxRecBase : NumberRecord :=
  { tg_user_id := 1, label := "IWAN", msisdn := "6281912345678", created_at := 10,
    last_fetch_ts := 0, last_payload := none, next_retry_ts := 0, last_error := none,
    last_notified_expiry := none, last_notified_type := none, last_notified_at := 0 }

/-- First record of the two-record delivery-failure scan. -/
def fxRecA : NumberRecord :=
  { fxRecBase with
    msisdn := "6281111111111",
    label := "A",
    last_payload := some (fxPayload ["05-03-2025"]) }

/-- Second record of the two-record delivery-failure scan. -/
def fxRecB : NumberRecord :=
  { fxRecBase with
    msisdn := "6282222222222",
    label := "B",
    last_payload := some (fxPayload ["05-03-2025"]) }

/-- Delivery outcome: the notification sink fails exactly for
`fxRecA`'s number. -/
def fxDeliverFailA (msisdn : String) (_k : SentKey) : Bool :=
  msisdn ≠ "6281111111111"

/-- The packages of a record's cached payload as traversed by the reminder
scan (`json.loads(row["last_payload"])` followed by the
`data`/`package_info`/`packages` access chain; an absent or unparseable
payload yields no packages). -/
def recPackages (rec : NumberRecord) : List Package :=
  match rec.last_payload with
  | none => []
  | some p => payloadPackages p

/-- The record after an H-1 send for expiry `"05-03-2025"` at scan time 100. -/
def fxRecH1Sent : NumberRecord :=
  { fxRecBase with
    last_payload := some (fxPayload ["05-03-2025"]),
    last_notified_expiry := some "05-03-2025",
    last_notified_type := some "H-1",
    last_notified_at := 100 }

/-- The record after a subsequent H0 send for expiry `"04-03-2025"` at scan
time 200 (cache refreshed in between). -/
def fxRecH0Sent : NumberRecord :=
  { fxRecH1Sent with
    last_payload := some (fxPayload ["04-03-2025"]),
    last_notified_expiry := some "04-03-2025",
    last_notified_type := some "H0",
    last_notified_at := 200 }

/-- A structured "not successful" response whose message carries the
rate-limit phrase. -/
def fxRateLimited : Payload :=
  { success := false,
    message := some "Anda telah mencapai Batas Maksimal Pengecekan hari ini",
    data := none }

/-! ## Helper lemmas -/

theorem digit_not_whitespace {c : Char} (h : c.isDigit = true) :
    c.isWhitespace = false := by
  by_contra hcontra
  have hw : c.isWhitespace = true := by
    cases hwb : c.isWhitespace
    · exact absurd hwb hcontra
    · rfl
  have hc : ((c = ' ' ∨ c = '\t') ∨ c = '\x0d') ∨ c = '\n' := by
    simpa [Char.isWhitespace] using hw
  rcases hc with ((rfl | rfl) | rfl) | rfl <;> exact absurd h (by decide)

theorem dropWhile_eq_self_of {p : Char → Bool} {cs : List Char}
    (h : ∀ c ∈ cs, p c = false) : cs.dropWhile p = cs := by
  cases cs with
  | nil => rfl
  | cons c t => simp [List.dropWhile_cons, h c (by simp)]

theorem stripChars_eq_self {cs : List Char}
    (h : ∀ c ∈ cs, c.isWhitespace = false) : stripChars cs = cs := by
  unfold stripChars
  rw [dropWhile_eq_self_of h, dropWhile_eq_self_of (fun c hc => h c (List.mem_reverse.mp hc)),
    List.reverse_reverse]

theorem normalizeCore_digits {cs : List Char} (h : ∀ c ∈ cs, c.isDigit = true) :
    normalizeCore cs = zeroTo62 (stripLeadingPlus cs) := by
  unfold normalizeCore
  rw [stripChars_eq_self (fun c hc => digit_not_whitespace (h c hc)),
    List.filter_eq_self.mpr (fun c hc => by simp [h c hc])]

theorem normalize_number_some {s v : String} (h : normalize_number s = some v) :
    matches62Regex v.data = true ∧ normalizeCore s.data = v.data := by
  unfold normalize_number at h
  split at h
  · obtain rfl : String.mk (normalizeCore s.data) = v := by
      injection h
    exact ⟨by assumption, rfl⟩
  · cases h

theorem matches62_shape {cs : List Char} (h : matches62Regex cs = true) :
    ∃ rest, cs = '6' :: '2' :: rest ∧ (∀ c ∈ rest, c.isDigit = true) ∧
      7 ≤ rest.length ∧ rest.length ≤ 14 := by
  match cs, h with
  | a :: b :: rest, h =>
    simp only [matches62Regex, Bool.and_eq_true, decide_eq_true_eq,
      List.all_eq_true] at h
    obtain ⟨⟨⟨⟨ha, hb⟩, hd⟩, h7⟩, h14⟩ := h
    exact ⟨rest, by rw [ha, hb], hd, h7, h14⟩

theorem normalizeCore_of_matches {cs : List Char} (h : matches62Regex cs = true) :
    normalizeCore cs = cs := by
  obtain ⟨rest, rfl, hd, -, -⟩ := matches62_shape h
  have hall : ∀ c ∈ '6' :: '2' :: rest, c.isDigit = true := by
    intro c hc
    rcases List.mem_cons.mp hc with rfl | hc2
    · decide
    rcases List.mem_cons.mp hc2 with rfl | hc3
    · decide
    · exact hd c hc3
  rw [normalizeCore_digits hall]
  simp [stripLeadingPlus, zeroTo62]

/-! ## Claim theorems -/

/-- C9: `normalize_number` maps the leading-`0` form to the `62`-prefixed
canonical form and the `+62` form to the same canonical form (both as the
spec's concrete examples and for every all-digit local part of admissible
length), rejects `"abc"`, and every accepted result fully matches
`62\d{7,14}`. -/
theorem C9_normalize_number :
    normalize_number "081912345678" = some "6281912345678"
    ∧ normalize_number "+6281912345678" = some "6281912345678"
    ∧ normalize_number "abc" = none
    ∧ (∀ t : String, (∀ c ∈ t.data, c.isDigit = true) → 7 ≤ t.length → t.length ≤ 14 →
        normalize_number ("0" ++ t) = some ("62" ++ t)
        ∧ normalize_number ("+62" ++ t) = some ("62" ++ t))
    ∧ (∀ s v : String, normalize_number s = some v → matches62Regex v.data = true) := by
  refine ⟨by decide, by decide, by decide, ?_, fun s v h => (normalize_number_some h).1⟩
  intro t hd h7 h14
  have hdata0 : ("0" ++ t).data = '0' :: t.data := by
    rw [String.data_append]; rfl
  have hdataP : ("+62" ++ t).data = '+' :: '6' :: '2' :: t.data := by
    rw [String.data_append]; rfl
  have hdata62 : ("62" ++ t).data = '6' :: '2' :: t.data := by
    rw [String.data_append]; rfl
  have hlen : t.data.length = t.length := rfl
  have hmatch : matches62Regex ('6' :: '2' :: t.data) = true := by
    simp only [matches62Regex, Bool.and_eq_true, decide_eq_true_eq, List.all_eq_true]
    exact ⟨⟨⟨⟨trivial, trivial⟩, hd⟩, h7⟩, h14⟩
  have heq62 : String.mk ('6' :: '2' :: t.data) = "62" ++ t := by
    rw [← hdata62]
  constructor
  · have hcore : normalizeCore ("0" ++ t).data = '6' :: '2' :: t.data := by
      rw [hdata0, normalizeCore_digits ?hall]
      case hall =>
        intro c hc
        rcases List.mem_cons.mp hc with rfl | hc2
        · decide
        · exact hd c hc2
      simp [stripLeadingPlus, zeroTo62]
    rw [normalize_number, hcore, if_pos hmatch, heq62]
  · have hcore : normalizeCore ("+62" ++ t).data = '6' :: '2' :: t.data := by
      rw [hdataP]
      unfold normalizeCore
      have hnw : ∀ c ∈ '+' :: '6' :: '2' :: t.data, c.isWhitespace = false := by
        intro c hc
        rcases List.mem_cons.mp hc with rfl | hc2
        · decide
        rcases List.mem_cons.mp hc2 with rfl | hc3
        · decide
        rcases List.mem_cons.mp hc3 with rfl | hc4
        · decide
        · exact digit_not_whitespace (hd c hc4)
      rw [stripChars_eq_self hnw,
        List.filter_eq_self.mpr ?hkeep]
      case hkeep =>
        intro c hc
        rcases List.mem_cons.mp hc with rfl | hc2
        · decide
        rcases List.mem_cons.mp hc2 with rfl | hc3
        · decide
        rcases List.mem_cons.mp hc3 with rfl | hc4
        · decide
        · simp [hd c hc4]
      simp [stripLeadingPlus, zeroTo62]
    rw [normalize_number, hcore, if_pos hmatch, heq62]

/-- C9 witness: the universal part applied to the local part
`"81912345678"`. -/
theorem C9_normalize_number_witness :
    normalize_number ("0" ++ "81912345678") = some ("62" ++ "81912345678")
    ∧ normalize_number ("+62" ++ "81912345678") = some ("62" ++ "81912345678") :=
  C9_normalize_number.2.2.2.1 "81912345678" (by decide) (by decide) (by decide)

/-- C10: `normalize_number` is idempotent on its accepted outputs: whenever
it returns `some v`, running it again on `v` returns `some v`. -/
theorem C10_normalize_number_idempotent :
    ∀ s v : String, normalize_number s = some v → normalize_number v = some v := by
  intro s v h
  have hm : matches62Regex v.data = true := (normalize_number_some h).1
  rw [normalize_number, normalizeCore_of_matches hm, if_pos hm]

/-- C10 witness: idempotence at the concrete accepted input
`"081912345678"`. -/
theorem C10_normalize_number_idempotent_witness :
    normalize_number "6281912345678" = some "6281912345678" :=
  C10_normalize_number_idempotent "081912345678" "6281912345678" (by decide)

/-- C2: a scheduled (non-forced) scan refreshes a record iff
`now - last_fetch_ts >= refresh_interval` and `now >= next_retry_ts`; with
`refresh_interval = 21600`, `last_fetch_ts = now - 21700` and
`next_retry_ts = 0` the record is due (for epoch-valid `now ≥ 0`), and with
`next_retry_ts = now + 10` it is not due for any elapsed interval. -/
theorem C2_scheduled_refresh_due_iff :
    (∀ now last retry interval : Int,
        refreshDue now last retry interval = true ↔
          (interval ≤ now - last ∧ retry ≤ now))
    ∧ (∀ (now interval : Int) (api : String → ApiResult) (rec : NumberRecord),
        (scheduled_refresh now interval api [rec]).2 = [rec.msisdn] ↔
          refreshDue now rec.last_fetch_ts rec.next_retry_ts interval = true)
    ∧ (∀ now : Int, 0 ≤ now → refreshDue now (now - 21700) 0 21600 = true)
    ∧ (∀ now last : Int, refreshDue now last (now + 10) 21600 = false) := by
  refine ⟨?_, ?_, ?_, ?_⟩
  · intro now last retry interval
    simp [refreshDue]
  · intro now interval api rec
    cases h : refreshDue now rec.last_fetch_ts rec.next_retry_ts interval <;>
      simp [scheduled_refresh, h]
  · intro now h0
    simp only [refreshDue, Bool.and_eq_true, decide_eq_true_eq]
    omega
  · intro now last
    have : decide (now + 10 ≤ now) = false := by
      simp only [decide_eq_false_iff_not]
      omega
    simp [refreshDue, this]

/-- C2 witness: the due example at a concrete epoch second. -/
theorem C2_scheduled_refresh_due_iff_witness :
    refreshDue 1700000000 (1700000000 - 21700) 0 21600 = true :=
  C2_scheduled_refresh_due_iff.2.2.1 1700000000 (by decide)

/-- C4: applying any successful fetch result to the store leaves
`last_error` absent and `next_retry_ts = 0`. -/
theorem C4_success_clears_error_and_retry :
    ∀ (now : Int) (r : ApiResult) (rec : NumberRecord),
      r.success = true →
        (applyFetchResult now r rec).last_error = none
        ∧ (applyFetchResult now r rec).next_retry_ts = 0 := by
  intro now r rec h
  simp [applyFetchResult, h, update_cache]

/-- C4 witness: a concrete successful fetch applied to a record. -/
theorem C4_success_clears_error_and_retry_witness :
    (applyFetchResult 1000 (fetch (.ok (fxPayload ["05-03-2025"]))) fxRecBase).last_error = none
    ∧ (applyFetchResult 1000 (fetch (.ok (fxPayload ["05-03-2025"]))) fxRecBase).next_retry_ts = 0 :=
  C4_success_clears_error_and_retry 1000 (fetch (.ok (fxPayload ["05-03-2025"]))) fxRecBase rfl

/-- C1 counterexample: a record holding a cached payload loses it on a
failed (transport-error) fetch — `update_cache` overwrites `last_payload`
with the failure's `payload` (`None`), so the stale cache is NOT retained. -/
theorem C1_stale_cache_counterexample :
    (fetch (.transportError "timeout")).success = false
    ∧ ({ fxRecBase with last_payload := some (fxPayload ["05-03-2025"]) } :
        NumberRecord).last_payload ≠ none
    ∧ (applyFetchResult 500 (fetch (.transportError "timeout"))
        { fxRecBase with last_payload := some (fxPayload ["05-03-2025"]) }).last_payload
        = none :=
  ⟨rfl, Option.some_ne_none _, rfl⟩

/-- C1 (amended): a successful fetch clears `last_error` and stores the
fetched payload; a failed fetch sets `last_error` to the failure message but
overwrites `last_payload` with the fetch's own `payload` field — `None` for
transport failures (clearing the stale cache) and the raw failure response
for structured failures; the prior cached payload is not retained. -/
theorem C1_fetch_cache_frame :
    (∀ (now : Int) (r : ApiResult) (rec : NumberRecord), r.success = true →
        (applyFetchResult now r rec).last_error = none
        ∧ (applyFetchResult now r rec).last_payload = r.payload)
    ∧ (∀ (now : Int) (r : ApiResult) (rec : NumberRecord), r.success = false →
        (applyFetchResult now r rec).last_error = some r.message
        ∧ (applyFetchResult now r rec).last_payload = r.payload)
    ∧ (∀ exc : String, (fetch (.transportError exc)).payload = none) := by
  refine ⟨?_, ?_, fun exc => rfl⟩ <;>
    (intro now r rec h; simp [applyFetchResult, h, update_cache])

/-- C1 witness: the failure branch applied to a concrete transport error. -/
theorem C1_fetch_cache_frame_witness :
    (applyFetchResult 500 (fetch (.transportError "timeout")) fxRecBase).last_error
        = some "Gagal mengambil data: timeout"
    ∧ (applyFetchResult 500 (fetch (.transportError "timeout")) fxRecBase).last_payload
        = none := by
  have h := C1_fetch_cache_frame.2.1 500 (fetch (.transportError "timeout")) fxRecBase rfl
  exact ⟨h.1, h.2⟩

/-- C3 counterexample: a transport failure whose exception text contains the
maximum-check-limit phrase produces a failure message containing the phrase
(case-insensitively), yet `block_seconds = 0` and the record stays
immediately retryable — the claim's "every fetch" is too broad. -/
theorem C3_rate_limit_counterexample :
    limitPhraseIn (fetch (.transportError "Batas Maksimal Pengecekan tercapai")).message = true
    ∧ (fetch (.transportError "Batas Maksimal Pengecekan tercapai")).success = false
    ∧ (fetch (.transportError "Batas Maksimal Pengecekan tercapai")).block_seconds = 0
    ∧ (applyFetchResult 1000 (fetch (.transportError "Batas Maksimal Pengecekan tercapai"))
        fxRecBase).next_retry_ts = 0 :=
  ⟨by decide, rfl, rfl, rfl⟩

/-- C3 (amended): for every *structured* failure (a parsed HTTP response the
code classifies as unsuccessful), `block_seconds = 3*3600` iff the failure
message contains the maximum-check-limit phrase case-insensitively, and then
the stored `next_retry_ts` equals `last_fetch_ts + 3*3600` exactly; every
other failure — phrase-free structured failures and all transport failures —
has `block_seconds = 0` and `next_retry_ts = 0`, i.e. is immediately
eligible for retry. -/
theorem C3_rate_limit_block :
    (∀ (p : Payload) (now : Int) (rec : NumberRecord),
      (fetch (.ok p)).success = false →
        ((fetch (.ok p)).block_seconds = 3 * 3600 ↔
            limitPhraseIn (fetch (.ok p)).message = true)
        ∧ (limitPhraseIn (fetch (.ok p)).message = true →
            (applyFetchResult now (fetch (.ok p)) rec).next_retry_ts =
              (applyFetchResult now (fetch (.ok p)) rec).last_fetch_ts + 3 * 3600)
        ∧ (limitPhraseIn (fetch (.ok p)).message = false →
            (fetch (.ok p)).block_seconds = 0
            ∧ (applyFetchResult now (fetch (.ok p)) rec).next_retry_ts = 0))
    ∧ (∀ (exc : String) (now : Int) (rec : NumberRecord),
        (fetch (.transportError exc)).block_seconds = 0
        ∧ (applyFetchResult now (fetch (.transportError exc)) rec).next_retry_ts = 0) := by
  constructor
  · intro p now rec hfail
    by_cases hs : p.success = false
    · have hfe : fetch (.ok p) =
          { success := false, payload := some p,
            message := ((strTruthy p.message).orElse
              (fun _ => strTruthy (pkgInfoErrMsg p))).getD "Unknown error",
            block_seconds :=
              if limitPhraseIn (((strTruthy p.message).orElse
                  (fun _ => strTruthy (pkgInfoErrMsg p))).getD "Unknown error") then
                BLOCK_SECONDS
              else 0 } := by
        simp [fetch, hs]
      rw [hfe]
      cases hp : limitPhraseIn (((strTruthy p.message).orElse
          (fun _ => strTruthy (pkgInfoErrMsg p))).getD "Unknown error") <;>
        simp [hp, applyFetchResult, update_cache, BLOCK_SECONDS]
    · have hs' : p.success = true := by
        revert hs
        cases p.success <;> simp
      cases herr : strTruthy (pkgInfoErrMsg p) with
      | some err =>
        have hfe : fetch (.ok p) =
            { success := false, payload := some p, message := err,
              block_seconds := if limitPhraseIn err then BLOCK_SECONDS else 0 } := by
          simp [fetch, hs', herr]
        rw [hfe]
        cases hp : limitPhraseIn err <;>
          simp [hp, applyFetchResult, update_cache, BLOCK_SECONDS]
      | none =>
        exfalso
        have hok : (fetch (.ok p)).success = true := by
          simp [fetch, hs', herr]
        rw [hfail] at hok
        cases hok
  · intro exc now rec
    exact ⟨rfl, rfl⟩

/-- C3 witness: the structured rate-limited response gets exactly the
3-hour block and `next_retry_ts = last_fetch_ts + 3*3600`. -/
theorem C3_rate_limit_block_witness :
    (fetch (.ok fxRateLimited)).block_seconds = 3 * 3600
    ∧ (applyFetchResult 1000 (fetch (.ok fxRateLimited)) fxRecBase).next_retry_ts =
        (applyFetchResult 1000 (fetch (.ok fxRateLimited)) fxRecBase).last_fetch_ts
          + 3 * 3600 := by
  have h := C3_rate_limit_block.1 fxRateLimited 1000 fxRecBase rfl
  exact ⟨h.1.mpr (by decide), h.2.1 (by decide)⟩

/-- C8: registering an already-tracked msisdn returns the duplicate
indication, the store-level `add_number` leaves the store (and in particular
the existing record) unchanged, and the `add`-flow handler surfaces the
duplicate message as the first line of its reply. -/
theorem C8_duplicate_registration :
    ∀ (now tg : Int) (label msisdn text : String) (store : List NumberRecord)
      (o : HttpOutcome),
      (∃ r ∈ store, r.msisdn = msisdn) →
        add_number now tg label msisdn store = (store, false, "Nomor sudah terdaftar.")
        ∧ (∃ rest, (handle_add_label now tg text msisdn o store).2 =
            "Nomor sudah terdaftar." ++ rest) := by
  intro now tg label msisdn text store o hex
  have hany : store.any (fun r => r.msisdn = msisdn) = true := by
    obtain ⟨r, hr, he⟩ := hex
    exact List.any_eq_true.mpr ⟨r, hr, by simp [he]⟩
  constructor
  · simp [add_number, hany]
  · refine ⟨"\n" ++ (if (fetch o).success then "✅ Data awal diambil."
      else "⚠️ " ++ (fetch o).message) ++ "\n\nKembali ke menu utama:", ?_⟩
    simp [handle_add_label, add_number, hany]

/-- C8 witness: the duplicate branch at a concrete one-record store. -/
theorem C8_duplicate_registration_witness :
    add_number 99 1 "X" "6281912345678" [fxRecBase] =
      ([fxRecBase], false, "Nomor sudah terdaftar.") :=
  (C8_duplicate_registration 99 1 "X" "6281912345678" "lbl" [fxRecBase]
    (.transportError "t") ⟨fxRecBase, by simp, rfl⟩).1

theorem getLast?_mem_list {α : Type} : ∀ {l : List α} {a : α}, l.getLast? = some a → a ∈ l
  | [], _, h => by cases h
  | [b], a, h => by
    simp only [List.getLast?_singleton, Option.some.injEq] at h
    simp [h]
  | b :: c :: t, a, h => by
    rw [List.getLast?_cons_cons] at h
    exact List.mem_cons_of_mem b (getLast?_mem_list h)

theorem sendApp_ok_cases {cap : String × String} {deliver : SentKey → Bool} {now_ts : Int}
    {bucket : List Package} {ntype : String} {st st' : NumberRecord × List SentKey}
    (h : sendApp cap deliver now_ts bucket ntype st = .ok st') :
    st' = st ∨
    (∃ pkg rest, bucket = pkg :: rest
      ∧ ¬(ntype = cap.1 ∧ cap.2 = pkg.expiry.getD "-")
      ∧ deliver (ntype, pkg.expiry.getD "-") = true
      ∧ st' = (set_last_notified (pkg.expiry.getD "-") ntype now_ts st.1,
               st.2 ++ [(ntype, pkg.expiry.getD "-")])) := by
  cases bucket with
  | nil =>
    left
    simp only [sendApp, Except.ok.injEq] at h
    exact h.symm
  | cons pkg rest =>
    simp only [sendApp] at h
    split at h
    · left
      injection h with h'
      exact h'.symm
    · split at h
      · right
        refine ⟨pkg, rest, rfl, by assumption, by assumption, ?_⟩
        injection h with h'
        exact h'.symm
      · cases h

theorem reminder_record_app_ok_props
    {today : Date} {hour : Nat} {prefs : UserPreferences} {now_ts : Int}
    {deliver : SentKey → Bool} {rec : NumberRecord} {res : NumberRecord × List SentKey}
    (h : reminder_record_app today hour prefs now_ts deliver rec = .ok res) :
    (∀ k ∈ res.2, (k.1 = "H-1" ∨ k.1 = "H0")
      ∧ ¬(k.1 = (capturedMarker rec).1 ∧ (capturedMarker rec).2 = k.2))
    ∧ (res.2 = [] → res.1 = rec)
    ∧ (∀ k, res.2.getLast? = some k →
        res.1.last_notified_type = some k.1 ∧ res.1.last_notified_expiry = some k.2
        ∧ res.1.last_notified_at = now_ts) := by
  unfold reminder_record_app at h
  split at h
  · injection h with h'
    subst h'
    exact ⟨by simp, fun _ => rfl, by simp⟩
  · split at h
    · injection h with h'
      subst h'
      exact ⟨by simp, fun _ => rfl, by simp⟩
    · dsimp only at h
      split at h
      · injection h with h'
        subst h'
        exact ⟨by simp, fun _ => rfl, by simp⟩
      · split at h
        · cases h
        · rename_i payload hpkgs st1 hsend1
          obtain hc1 := sendApp_ok_cases hsend1
          obtain hc0 := sendApp_ok_cases h
          rcases hc1 with h1eq | ⟨p1, t1, hb1, hns1, hd1, h1eq⟩ <;>
            rcases hc0 with h0eq | ⟨p0, t0, hb0, hns0, hd0, h0eq⟩ <;>
              subst h1eq <;> subst h0eq
          · exact ⟨by simp, fun _ => rfl, by simp⟩
          · refine ⟨?_, by intro habs; simp at habs, ?_⟩
            · intro k hk
              have hk' : k ∈ [(("H0", p0.expiry.getD "-") : SentKey)] := hk
              have hke := List.mem_singleton.mp hk'
              subst hke
              exact ⟨Or.inr rfl, hns0⟩
            · intro k hk
              have hk' : some (("H0", p0.expiry.getD "-") : SentKey) = some k := hk
              injection hk' with hk2
              subst hk2
              exact ⟨rfl, rfl, rfl⟩
          · refine ⟨?_, by intro habs; simp at habs, ?_⟩
            · intro k hk
              have hk' : k ∈ [(("H-1", p1.expiry.getD "-") : SentKey)] := hk
              have hke := List.mem_singleton.mp hk'
              subst hke
              exact ⟨Or.inl rfl, hns1⟩
            · intro k hk
              have hk' : some (("H-1", p1.expiry.getD "-") : SentKey) = some k := hk
              injection hk' with hk2
              subst hk2
              exact ⟨rfl, rfl, rfl⟩
          · refine ⟨?_, by intro habs; simp at habs, ?_⟩
            · intro k hk
              have hk' : k ∈ [(("H-1", p1.expiry.getD "-") : SentKey),
                  ("H0", p0.expiry.getD "-")] := hk
              rcases List.mem_cons.mp hk' with rfl | hk2
              · exact ⟨Or.inl rfl, hns1⟩
              · have hke := List.mem_singleton.mp hk2
                subst hke
                exact ⟨Or.inr rfl, hns0⟩
            · intro k hk
              have hk' : some (("H0", p0.expiry.getD "-") : SentKey) = some k := hk
              injection hk' with hk2
              subst hk2
              exact ⟨rfl, rfl, rfl⟩

/-- C6 counterexample: three reminder passes on one record, all reachable —
H-1 for `"05-03-2025"` is delivered in pass 1; the cache is refreshed to a
package expiring today and H0 for `"04-03-2025"` is delivered in pass 2
(overwriting the single marker); the cache returns to the original payload
and pass 3 delivers H-1 for `"05-03-2025"` a second time.  The same
`(type, expiry)` reminder is therefore sent twice across a sequence of scan
passes, refuting at-most-once. -/
theorem C6_resend_counterexample :
    reminder_record_app ⟨2025, 3, 4⟩ 9 (fxPrefs 9) 100 (fun _ => true)
        { fxRecBase with last_payload := some (fxPayload ["05-03-2025"]) } =
      .ok (fxRecH1Sent, [("H-1", "05-03-2025")])
    ∧ reminder_record_app ⟨2025, 3, 4⟩ 10 (fxPrefs 10) 200 (fun _ => true)
        { fxRecH1Sent with last_payload := some (fxPayload ["04-03-2025"]) } =
      .ok (fxRecH0Sent, [("H0", "04-03-2025")])
    ∧ reminder_record_app ⟨2025, 3, 4⟩ 11 (fxPrefs 11) 300 (fun _ => true)
        { fxRecH0Sent with last_payload := some (fxPayload ["05-03-2025"]) } =
      .ok ({ fxRecH0Sent with
             last_payload := some (fxPayload ["05-03-2025"]),
             last_notified_expiry := some "05-03-2025",
             last_notified_type := some "H-1",
             last_notified_at := 300 },
           [("H-1", "05-03-2025")]) :=
  ⟨rfl, rfl, rfl⟩

/-- C6 (amended): the single `(last_notified_type, last_notified_expiry)`
marker prevents only *consecutive* duplicates: every key delivered in a pass
differs from the marker captured at pass start, after a pass the marker
equals the last delivered key, and hence the last key delivered in one pass
is never delivered again by the immediately following pass on the resulting
record.  At-most-once over arbitrary pass sequences does not hold (see the
counterexample). -/
theorem C6_consecutive_dedup :
    ∀ (today : Date) (hour : Nat) (prefs : UserPreferences) (now_ts : Int)
      (deliver : SentKey → Bool) (rec : NumberRecord)
      (res : NumberRecord × List SentKey),
      reminder_record_app today hour prefs now_ts deliver rec = .ok res →
        (∀ k ∈ res.2, k ≠ capturedMarker rec)
        ∧ (∀ k, res.2.getLast? = some k → capturedMarker res.1 = k)
        ∧ (∀ (today' : Date) (hour' : Nat) (prefs' : UserPreferences) (now' : Int)
            (deliver' : SentKey → Bool) (res' : NumberRecord × List SentKey)
            (k : SentKey),
            res.2.getLast? = some k →
            reminder_record_app today' hour' prefs' now' deliver' res.1 = .ok res' →
            k ∉ res'.2) := by
  intro today hour prefs now_ts deliver rec res h
  obtain ⟨hmem, _, hlast⟩ := reminder_record_app_ok_props h
  have hcap : ∀ k, res.2.getLast? = some k → capturedMarker res.1 = k := by
    intro k hk
    obtain ⟨k1, k2⟩ := k
    obtain ⟨ht, he, -⟩ := hlast (k1, k2) hk
    obtain ⟨htype, -⟩ := hmem (k1, k2) (getLast?_mem_list hk)
    have hup : pyUpper k1 = k1 := by
      rcases htype with h1 | h1 <;>
        (rw [show k1 = (k1, k2).1 from rfl, h1]; decide)
    simp [capturedMarker, ht, he, hup]
  refine ⟨?_, hcap, ?_⟩
  · intro k hk heq
    obtain ⟨-, hns⟩ := hmem k hk
    subst heq
    exact hns ⟨rfl, rfl⟩
  · intro today' hour' prefs' now' deliver' res' k hk h' hkmem
    obtain ⟨hmem', -, -⟩ := reminder_record_app_ok_props h'
    obtain ⟨-, hns⟩ := hmem' k hkmem
    rw [hcap k hk] at hns
    exact hns ⟨rfl, rfl⟩

/-- C6 witness: the amended theorem at the concrete pass 1; its last sent key
cannot be re-delivered by the immediately following pass (which sends
nothing). -/
theorem C6_consecutive_dedup_witness :
    ("H-1", "05-03-2025") ∉ ((fxRecH1Sent, ([] : List SentKey)) :
      NumberRecord × List SentKey).2 :=
  (C6_consecutive_dedup ⟨2025, 3, 4⟩ 9 (fxPrefs 9) 100 (fun _ => true)
      { fxRecBase with last_payload := some (fxPayload ["05-03-2025"]) }
      (fxRecH1Sent, [("H-1", "05-03-2025")]) rfl).2.2
    ⟨2025, 3, 4⟩ 9 (fxPrefs 9) 200 (fun _ => true) (fxRecH1Sent, [])
    ("H-1", "05-03-2025") rfl rfl

theorem sendApp_true (cap : String × String) (now_ts : Int) (bucket : List Package)
    (ntype : String) (st : NumberRecord × List SentKey) :
    sendApp cap (fun _ => true) now_ts bucket ntype st =
      .ok (sendXl cap (fun _ => true) now_ts bucket ntype st) := by
  cases bucket with
  | nil => rfl
  | cons pkg rest =>
    simp only [sendApp, sendXl]
    split
    · rfl
    · rfl

theorem reminder_record_app_true_sends
    {today : Date} {hour : Nat} {prefs : UserPreferences} {now_ts : Int}
    {rec : NumberRecord} {res : NumberRecord × List SentKey}
    (h : reminder_record_app today hour prefs now_ts (fun _ => true) rec = .ok res)
    (hh : hour = prefs.reminder_hour) :
    (∀ pkg rest, due_h1_filter today prefs (recPackages rec) = pkg :: rest →
      ¬("H-1" = (capturedMarker rec).1
        ∧ (capturedMarker rec).2 = pkg.expiry.getD "-") →
      ("H-1", pkg.expiry.getD "-") ∈ res.2)
    ∧ (∀ pkg rest, due_h0_filter today prefs (recPackages rec) = pkg :: rest →
      ¬("H0" = (capturedMarker rec).1
        ∧ (capturedMarker rec).2 = pkg.expiry.getD "-") →
      ("H0", pkg.expiry.getD "-") ∈ res.2) := by
  unfold reminder_record_app at h
  split at h
  · exact absurd hh (by assumption)
  · split at h
    · rename_i heq
      constructor <;> intro pkg rest hb hns <;>
        rw [show recPackages rec = [] by simp [recPackages, heq]] at hb <;>
          simp [due_h1_filter, due_h0_filter] at hb
    · rename_i payload heq
      dsimp only at h
      split at h
      · rename_i hempty
        have hpp : payloadPackages payload = [] := List.isEmpty_iff.mp hempty
        constructor <;> intro pkg rest hb hns <;>
          rw [show recPackages rec = payloadPackages payload by
            simp [recPackages, heq], hpp] at hb <;>
            simp [due_h1_filter, due_h0_filter] at hb
      · rw [sendApp_true] at h
        dsimp only at h
        rw [sendApp_true] at h
        injection h with h'
        subst h'
        have hbridge : recPackages rec = payloadPackages payload := by
          simp [recPackages, heq]
        constructor
        · intro pkg rest hb hns
          rw [hbridge] at hb
          rw [hb]
          have hst1 : sendXl (capturedMarker rec) (fun _ => true) now_ts
              (pkg :: rest) "H-1" (rec, []) =
              (set_last_notified (pkg.expiry.getD "-") "H-1" now_ts rec,
               [("H-1", pkg.expiry.getD "-")]) := by
            simp [sendXl, hns]
          rw [hst1]
          cases hb0 : due_h0_filter today prefs (payloadPackages payload) with
          | nil => simp [sendXl]
          | cons p0 t0 =>
            by_cases hc0 : ("H0" = (capturedMarker rec).1
                ∧ (capturedMarker rec).2 = p0.expiry.getD "-")
            · simp [sendXl, hc0]
            · simp [sendXl, hc0]
        · intro pkg rest hb hns
          rw [hbridge] at hb
          rw [hb]
          simp [sendXl, hns]

/-- C5: in a reminder pass whose hour matches the owner's send hour (and
with the code-reachable uppercase marker type), each non-empty due bucket's
notification is suppressed iff `(notif_type, first due package's expiry)`
equals the record's `(last_notified_type, last_notified_expiry)`; otherwise
it is delivered and the marker and timestamp are updated.  Concretely:
after an H-1 send for `"05-03-2025"`, re-running the scan with unchanged
cache and the same hour sends nothing, and changing the cached expiry to
`"06-03-2025"` re-enables a send. -/
theorem C5_reminder_dedup :
    (∀ (today : Date) (hour : Nat) (prefs : UserPreferences) (now_ts : Int)
       (rec : NumberRecord) (res : NumberRecord × List SentKey),
      pyUpper (rec.last_notified_type.getD "") = rec.last_notified_type.getD "" →
      hour = prefs.reminder_hour →
      reminder_record_app today hour prefs now_ts (fun _ => true) rec = .ok res →
        (∀ pkg rest, due_h1_filter today prefs (recPackages rec) = pkg :: rest →
          ((("H-1", pkg.expiry.getD "-") ∈ res.2) ↔
            ¬("H-1" = rec.last_notified_type.getD ""
               ∧ rec.last_notified_expiry.getD "" = pkg.expiry.getD "-")))
        ∧ (∀ pkg rest, due_h0_filter today prefs (recPackages rec) = pkg :: rest →
            ((("H0", pkg.expiry.getD "-") ∈ res.2) ↔
              ¬("H0" = rec.last_notified_type.getD ""
                 ∧ rec.last_notified_expiry.getD "" = pkg.expiry.getD "-")))
        ∧ (∀ k, res.2.getLast? = some k →
            res.1.last_notified_type = some k.1
            ∧ res.1.last_notified_expiry = some k.2
            ∧ res.1.last_notified_at = now_ts)
        ∧ (res.2 = [] → res.1 = rec))
    ∧ reminder_record_app ⟨2025, 3, 4⟩ 9 (fxPrefs 9) 100 (fun _ => true)
        { fxRecBase with last_payload := some (fxPayload ["05-03-2025"]) } =
      .ok (fxRecH1Sent, [("H-1", "05-03-2025")])
    ∧ reminder_record_app ⟨2025, 3, 4⟩ 9 (fxPrefs 9) 200 (fun _ => true) fxRecH1Sent =
      .ok (fxRecH1Sent, [])
    ∧ reminder_record_app ⟨2025, 3, 5⟩ 9 (fxPrefs 9) 300 (fun _ => true)
        { fxRecH1Sent with last_payload := some (fxPayload ["06-03-2025"]) } =
      .ok ({ fxRecH1Sent with
             last_payload := some (fxPayload ["06-03-2025"]),
             last_notified_expiry := some "06-03-2025",
             last_notified_at := 300 },
           [("H-1", "06-03-2025")]) := by
  refine ⟨?_, rfl, rfl, rfl⟩
  intro today hour prefs now_ts rec res hup hh h
  have hcap : capturedMarker rec =
      (rec.last_notified_type.getD "", rec.last_notified_expiry.getD "") := by
    simp [capturedMarker, hup]
  obtain ⟨hmem, hnil, hlast⟩ := reminder_record_app_ok_props h
  obtain ⟨hs1, hs0⟩ := reminder_record_app_true_sends h hh
  refine ⟨?_, ?_, hlast, hnil⟩
  · intro pkg rest hb
    constructor
    · intro hkmem
      obtain ⟨-, hns⟩ := hmem _ hkmem
      rw [hcap] at hns
      exact hns
    · intro hns
      apply hs1 pkg rest hb
      rw [hcap]
      exact hns
  · intro pkg rest hb
    constructor
    · intro hkmem
      obtain ⟨-, hns⟩ := hmem _ hkmem
      rw [hcap] at hns
      exact hns
    · intro hns
      apply hs0 pkg rest hb
      rw [hcap]
      exact hns

/-- C5 witness: the suppression iff applied to the concrete first pass —
the H-1 reminder for `"05-03-2025"` is delivered because the fresh record's
marker is empty. -/
theorem C5_reminder_dedup_witness :
    (("H-1", "05-03-2025") ∈
        ((fxRecH1Sent, [(("H-1" : String), ("05-03-2025" : String))]) :
          NumberRecord × List SentKey).2) ↔
      ¬("H-1" = (({ fxRecBase with
            last_payload := some (fxPayload ["05-03-2025"]) } :
          NumberRecord).last_notified_type.getD "")
        ∧ (({ fxRecBase with
            last_payload := some (fxPayload ["05-03-2025"]) } :
          NumberRecord).last_notified_expiry.getD "") = "05-03-2025") :=
  ((C5_reminder_dedup.1 ⟨2025, 3, 4⟩ 9 (fxPrefs 9) 100
      { fxRecBase with last_payload := some (fxPayload ["05-03-2025"]) }
      (fxRecH1Sent, [("H-1", "05-03-2025")]) rfl rfl rfl).1
    { name := some "XTRA Combo VIP", expiry := some "05-03-2025" } [] rfl)

/-- C7: at the failing input — two records both due for H-1, the sink
failing for the first — the `app.py` reminder scan propagates the delivery
exception and never processes the second record, while the `xl_bot.py` scan
(whose `send_reminder` wraps delivery in `try`/`except`) leaves the first
record's marker untouched, continues, and delivers the second record's
reminder.  The claim (failure is isolated per record and the scan continues)
holds of `xl_bot.py` but is violated by `app.py`'s `reminder_job`. -/
theorem C7_delivery_failure_behavior :
    reminder_job_app ⟨2025, 3, 4⟩ 9 (fun _ => fxPrefs 9) 100 fxDeliverFailA
        [fxRecA, fxRecB] =
      .error ("H-1", "05-03-2025")
    ∧ reminder_job_xl ⟨2025, 3, 4⟩ 9 (fun _ => fxPrefs 9) 100 fxDeliverFailA
        [fxRecA, fxRecB] =
      [(fxRecA, []),
       ({ fxRecB with
          last_notified_expiry := some "05-03-2025",
          last_notified_type := some "H-1",
          last_notified_at := 100 },
        [("H-1", "05-03-2025")])] :=
  ⟨rfl, rfl⟩

end BotPaketXL
